import Mathlib

/-!
# youtube-thumbnail-api: a verification development

Shallow embedding of `src/main/main.go`.

* Go `string` values are modelled by `String`; `+` on Go strings is `++`.
* Go `int` values are modelled by `Int`; `strconv.Atoi` only produces values
  of the 64-bit range and `strconv.Itoa` is defined on every integer.
* A Go slice is modelled by `Slice α`: either the `nil` slice or a non-nil
  slice holding a list of elements.  The distinction matters for
  `encoding/json`, which renders a nil slice as `null`.
* The handlers are state transformers on a `World`: the response writer of the
  `net/http` server, the process log, the trace of outbound requests and the
  flag set by `log.Fatal`.
* The operating system and the network are an `Env`: the environment variable
  `YT_API_KEY`, the result of `http.Get` for every URL, and the result of
  `json.Unmarshal` into a `YouTubeResponse` for every body.
-/

namespace YoutubeThumbnailApi

/-! ## Go slices -/

/-- A Go slice value: `nil`, or a non-nil slice with its elements. -/
inductive Slice (α : Type) where
  | nil : Slice α
  | mk : List α → Slice α
  deriving Repr, DecidableEq

namespace Slice

/-- The elements a `for ... range` loop visits, in order. -/
def toList {α : Type} : Slice α → List α
  | Slice.nil => []
  | Slice.mk xs => xs

/-- Go `len(s)`. -/
def len {α : Type} (s : Slice α) : Nat := s.toList.length

/-- Go `append(s, x)`: the result is never nil. -/
def append {α : Type} (s : Slice α) (x : α) : Slice α :=
  Slice.mk (s.toList ++ [x])

/-- Go `s == nil`. -/
def isNil {α : Type} : Slice α → Bool
  | Slice.nil => true
  | Slice.mk _ => false

end Slice

/-! ## strconv -/

/-- Decimal digits of an unsigned value, most significant first
(`strconv.formatBits` in base 10). -/
def formatBits (u : Nat) : List Char := Nat.toDigits 10 u

/-- Go `strconv.Itoa`: base-10 rendering, with a leading `-` for negatives. -/
def Itoa (i : Int) : String :=
  if i < 0 then String.mk ('-' :: formatBits i.natAbs)
  else String.mk (formatBits i.natAbs)

/-- The two errors of `strconv.NumError`. -/
inductive NumError where
  | ErrSyntax : NumError
  | ErrRange : NumError
  deriving Repr, DecidableEq

deriving instance DecidableEq for Except

/-- Value of a run of decimal digits (the accumulation loop of `ParseUint`). -/
def parseDigits (ds : List Char) : Nat :=
  ds.foldl (fun n ch => n * 10 + (ch.toNat - '0'.toNat)) 0

/-- Whether a byte is one of `'0'..'9'`. -/
def isDecDigit (ch : Char) : Bool := '0'.toNat ≤ ch.toNat && ch.toNat ≤ '9'.toNat

/-- Go `strconv.Atoi` on a 64-bit platform: an optional sign followed by one
or more decimal digits, the value within `[-2^63, 2^63 - 1]`. -/
def Atoi (s : String) : Except NumError Int :=
  match s.data with
  | [] => Except.error NumError.ErrSyntax
  | c :: cs =>
    let neg := c == '-'
    let ds := if c == '-' || c == '+' then cs else c :: cs
    if ds.isEmpty then Except.error NumError.ErrSyntax
    else if !(ds.all isDecDigit) then Except.error NumError.ErrSyntax
    else
      let un := parseDigits ds
      if !neg && un ≥ 2 ^ 63 then Except.error NumError.ErrRange
      else if neg && un > 2 ^ 63 then Except.error NumError.ErrRange
      else if neg then Except.ok (-(un : Int))
      else Except.ok (un : Int)

/-! ## Data model (`main.go`, lines 12-31) -/

structure Id where
  VideoId : String
  deriving Repr, DecidableEq

structure Video where
  Id : Id
  deriving Repr, DecidableEq

structure YouTubeResponse where
  Video : Slice Video
  deriving Repr, DecidableEq

structure VideoResponse where
  ThumbnailUrl : String
  VideoUrl : String
  deriving Repr, DecidableEq

structure ApiResponse where
  Videos : Slice VideoResponse
  deriving Repr, DecidableEq

/-! ## Pure functions (`main.go`, lines 93-111) -/

/-- The loop body of `mapYouTubeResponseToJsonResponse`. -/
def mapStep (apiResponse : ApiResponse) (video : Video) : ApiResponse :=
  let videoResponse : VideoResponse :=
    { ThumbnailUrl := "https://img.youtube.com/vi/" ++ video.Id.VideoId ++ "/maxresdefault.jpg"
      VideoUrl := "https://www.youtube.com/watch?v=" ++ video.Id.VideoId }
  { apiResponse with Videos := apiResponse.Videos.append videoResponse }

/-- Go `mapYouTubeResponseToJsonResponse`: starts from the zero `ApiResponse`
(whose `Videos` is the nil slice) and appends one entry per upstream video. -/
def mapYouTubeResponseToJsonResponse (response : YouTubeResponse) : ApiResponse :=
  response.Video.toList.foldl mapStep { Videos := Slice.nil }

/-- Go `buildYouTubeRequestUrl`. -/
def buildYouTubeRequestUrl (channelId : String) (maxResults : Int) (apiKey : String) : String :=
  "https://www.googleapis.com/youtube/v3/search?part=snippet" ++
    "&channelId=" ++ channelId ++
    "&maxResults=" ++ Itoa maxResults ++
    "&order=date&type=video" ++
    "&key=" ++ apiKey

/-! ## encoding/json: `json.Marshal` of an `ApiResponse` -/

/-- The digit table `hex` of `encoding/json`. -/
def hex : List Char := "0123456789abcdef".data

/-- The table `htmlSafeSet` of `encoding/json` (ASCII only): every byte from
space up, except the double quote, `&`, `<`, `>` and the backslash. -/
def htmlSafeSet (b : Char) : Bool :=
  decide (32 ≤ b.toNat) && b != '"' && b != '&' && b != '<'
    && b != '>' && b != Char.ofNat 92

/-- One step of `appendString` of `encoding/json` with HTML escaping on, as
`json.Marshal` calls it.  A `String` holds valid Unicode only, so the branch
for invalid UTF-8 does not arise. -/
def appendChar (b : Char) : List Char :=
  if b.toNat < 128 then
    if htmlSafeSet b then [b]
    else if b = Char.ofNat 92 ∨ b = '"' then [Char.ofNat 92, b]
    else if b.toNat = 8 then [Char.ofNat 92, 'b']
    else if b.toNat = 12 then [Char.ofNat 92, 'f']
    else if b.toNat = 10 then [Char.ofNat 92, 'n']
    else if b.toNat = 13 then [Char.ofNat 92, 'r']
    else if b.toNat = 9 then [Char.ofNat 92, 't']
    else [Char.ofNat 92, 'u', '0', '0', hex.getD (b.toNat / 16) '0', hex.getD (b.toNat % 16) '0']
  else if b.toNat = 8232 ∨ b.toNat = 8233 then
    [Char.ofNat 92, 'u', '2', '0', '2', hex.getD (b.toNat % 16) '0']
  else [b]

/-- JSON rendering of a Go string: quoted, each character through `appendChar`. -/
def appendString (s : String) : String :=
  String.mk ('"' :: (s.data.flatMap appendChar ++ ['"']))

/-- JSON rendering of one `VideoResponse` struct. -/
def marshalVideoResponse (v : VideoResponse) : String :=
  "\x7b\"thumbnailUrl\":" ++ appendString v.ThumbnailUrl ++
    ",\"videoUrl\":" ++ appendString v.VideoUrl ++ "\x7d"

/-- JSON rendering of a slice: `null` for the nil slice, otherwise the
bracketed, comma-separated elements. -/
def marshalSlice {α : Type} (f : α → String) : Slice α → String
  | Slice.nil => "null"
  | Slice.mk xs => "[" ++ ",".intercalate (xs.map f) ++ "]"

/-- Go `json.Marshal` on an `ApiResponse`.  It has no failing case for this
type; the result type keeps the `error` of the Go signature. -/
def jsonMarshal (v : ApiResponse) : Except String String :=
  Except.ok ("\x7b\"videos\":" ++ marshalSlice marshalVideoResponse v.Videos ++ "\x7d")

/-! ## net/http: headers, query values, the server's response writer -/

/-- Go `http.Header` and `url.Values`: a map from a key to its list of values;
a key that is absent has the empty list. -/
abbrev Values := String → List String

namespace Values

/-- The empty map. -/
def empty : Values := fun _ => []

/-- Go `Values.Get` / `Header.Get`: the first value of the key, or `""`. -/
def Get (v : Values) (key : String) : String :=
  match v key with
  | [] => ""
  | x :: _ => x

/-- Go `Header.Add`: appends a value to the key.  The handlers only use keys
already in canonical MIME form, on which canonicalisation is the identity. -/
def Add (v : Values) (key value : String) : Values :=
  fun k => if k = key then v k ++ [value] else v k

/-- Go `Header.Set`: replaces the values of the key. -/
def Set (v : Values) (key value : String) : Values :=
  fun k => if k = key then [value] else v k

/-- Go `Header.Del`. -/
def Del (v : Values) (key : String) : Values :=
  fun k => if k = key then [] else v k

end Values

/-- The part of `*http.Request` the handlers read: the method and the parsed
query, `r.URL.Query()`. -/
structure Request where
  Method : String
  Query : Values

/-- The `http.ResponseWriter` the `net/http` server passes to a handler.
`header` is the map `w.Header()` returns; `WriteHeader` fixes the status and
the headers that are sent; `body` holds the bytes `Write` accepted.  What the
server does below the writer once the handler has returned (the `Date` and
`Content-Length` headers, chunking, eliding the body of a `HEAD` request) is
outside the model. -/
structure ResponseWriter where
  header : Values
  wroteHeader : Bool
  status : Int
  sentHeader : Values
  body : String

namespace ResponseWriter

/-- The writer at the start of a request. -/
def fresh : ResponseWriter :=
  { header := Values.empty, wroteHeader := false, status := 0,
    sentHeader := Values.empty, body := "" }

/-- `bodyAllowedForStatus` of `net/http`. -/
def bodyAllowedForStatus (status : Int) : Bool :=
  if 100 ≤ status ∧ status ≤ 199 then false
  else if status = 204 then false
  else if status = 304 then false
  else true

/-- Go `w.WriteHeader(code)` for a final status code: the first call fixes the
status and the headers, a later call changes nothing. -/
def WriteHeader (w : ResponseWriter) (code : Int) : ResponseWriter :=
  if w.wroteHeader then w
  else { w with wroteHeader := true, status := code, sentHeader := w.header }

/-- Go `w.Write(data)`: writes the header with status 200 if none was written;
data for a status that allows no body is refused (`ErrBodyNotAllowed`). -/
def Write (w : ResponseWriter) (data : String) : ResponseWriter :=
  let w1 := if w.wroteHeader then w else w.WriteHeader 200
  if data = "" then w1
  else if !bodyAllowedForStatus w1.status then w1
  else { w1 with body := w1.body ++ data }

end ResponseWriter

/-- Go `http.Error(w, error, code)`. -/
def httpError (w : ResponseWriter) (error : String) (code : Int) : ResponseWriter :=
  let h := w.header
  let h := h.Del "Content-Length"
  let h := h.Set "Content-Type" "text/plain; charset=utf-8"
  let h := h.Set "X-Content-Type-Options" "nosniff"
  let w := { w with header := h }
  let w := w.WriteHeader code
  w.Write (error ++ "\n")

/-! ## The process and its environment -/

/-- What a handler can change: the response writer, the log, the URLs passed
to `http.Get` so far, and whether `log.Fatal` ended the process. -/
structure World where
  w : ResponseWriter
  log : List String
  outbound : List String
  exited : Bool

/-- The world at the start of a request. -/
def World.init : World :=
  { w := ResponseWriter.fresh, log := [], outbound := [], exited := false }

/-- Go `http.HandlerFunc`. -/
abbrev HandlerFunc := Request → World → World

/-- An `*http.Response` after `io.ReadAll(res.Body)`: the status code, the
bytes read, and the error of the read, if any. -/
structure Response where
  StatusCode : Int
  Body : String
  ReadErr : Option String

/-- The environment of the process: `os.Getenv`, the outcome of `http.Get` on
each URL, and the outcome of `json.Unmarshal(body, &v)` for a
`YouTubeResponse` `v` (the value left in `v` and the returned error). -/
structure Env where
  Getenv : String → String
  httpGet : String → Except String Response
  jsonUnmarshal : String → YouTubeResponse → YouTubeResponse × Option String

/-! ## Handlers (`main.go`, lines 33-91 and 113-126) -/

/-- Go `thumbnails`. -/
def thumbnails (env : Env) : HandlerFunc := fun r σ =>
  let apiKey := env.Getenv "YT_API_KEY"
  if apiKey = "" then
    { σ with log := σ.log ++ ["Environment variable YT_API_KEY has not been set!"],
             exited := true }
  else
    let channelId := r.Query.Get "channelId"
    if channelId = "" then
      { σ with w := httpError σ.w "channelId is missing" 400 }
    else
      match Atoi (r.Query.Get "maxResults") with
      | Except.error _ =>
        { σ with w := httpError σ.w "maxResults needs to be a valid Integer" 400 }
      | Except.ok maxResults =>
        let url := buildYouTubeRequestUrl channelId maxResults apiKey
        let σ := { σ with outbound := σ.outbound ++ [url] }
        match env.httpGet url with
        | Except.error err =>
          { σ with w := httpError σ.w "An internal error occurred while making the request" 500,
                   log := σ.log ++ [err] }
        | Except.ok res =>
          if res.StatusCode > 299 then
            { σ with
              w := httpError σ.w
                ("YouTube API returned response code " ++ Itoa res.StatusCode) 500,
              log := σ.log ++ ["Response failed with status code: " ++ Itoa res.StatusCode ++
                " and\nbody: " ++ res.Body ++ "\n"] }
          else
            match res.ReadErr with
            | some err =>
              { σ with
                w := httpError σ.w
                  "An internal error occurred while reading the YouTube response" 500,
                log := σ.log ++ [err] }
            | none =>
              let youTubeResponse : YouTubeResponse := { Video := Slice.nil }
              let youTubeResponse := (env.jsonUnmarshal res.Body youTubeResponse).1
              let apiResponse := mapYouTubeResponseToJsonResponse youTubeResponse
              match jsonMarshal apiResponse with
              | Except.error err =>
                { σ with
                  w := httpError σ.w
                    "An internal error occurred while generating the json response" 500,
                  log := σ.log ++ [err] }
              | Except.ok apiResponseJson =>
                let w := σ.w
                let w := { w with header := w.header.Set "Content-Type" "application/json" }
                let w := w.WriteHeader 200
                let w := w.Write apiResponseJson
                { σ with w := w }

/-- Go `CORS`. -/
def CORS (next : HandlerFunc) : HandlerFunc := fun r σ =>
  let h := σ.w.header
  let h := h.Add "Access-Control-Allow-Origin" "*"
  let h := h.Add "Access-Control-Allow-Headers" "Content-Type"
  let h := h.Add "Access-Control-Allow-Methods" "GET"
  let σ := { σ with w := { σ.w with header := h } }
  if r.Method = "OPTIONS" then
    { σ with w := httpError σ.w "No Content" 204 }
  else
    next r σ

/-- The handler `handleRequests` registers on `/thumbnails`. -/
def thumbnailsRoute (env : Env) : HandlerFunc := CORS (thumbnails env)

/-! ## Auxiliary definitions for the statements -/

/-- Whether `t` occurs in `s` as a contiguous run of characters. -/
def occursIn (t s : String) : Bool :=
  s.data.tails.any (fun suf => t.data.isPrefixOf suf)

/-- The entry the mapper emits for a video id. -/
def entryFor (v : String) : VideoResponse :=
  { ThumbnailUrl := "https://img.youtube.com/vi/" ++ v ++ "/maxresdefault.jpg"
    VideoUrl := "https://www.youtube.com/watch?v=" ++ v }

/-- The video ids of an upstream result, in order. -/
def videoIds (response : YouTubeResponse) : List String :=
  response.Video.toList.map (fun video => video.Id.VideoId)

/-- An environment with the credential `apiKey`, in which every `http.Get`
has the outcome `res` and every `json.Unmarshal` the outcome `dec`. -/
def constEnv (apiKey : String) (res : Except String Response)
    (dec : YouTubeResponse × Option String) : Env :=
  { Getenv := fun name => if name = "YT_API_KEY" then apiKey else ""
    httpGet := fun _ => res
    jsonUnmarshal := fun _ _ => dec }

/-- A request with the given method and the given single-valued query
parameters. -/
def requestOf (method : String) (params : List (String × String)) : Request :=
  { Method := method
    Query := fun key => (params.filter (fun p => p.1 = key)).map (fun p => p.2) }

/-! ## Decimal rendering -/

/-- The accumulation step of `parseDigits`. -/
def digitStep (n : Nat) (ch : Char) : Nat := n * 10 + (ch.toNat - '0'.toNat)

theorem parseDigits_eq_foldl (ds : List Char) : parseDigits ds = ds.foldl digitStep 0 := rfl

theorem digitChar_value (d : Nat) (h : d < 10) : (Nat.digitChar d).toNat - '0'.toNat = d := by
  interval_cases d <;> rfl

theorem digitChar_isDecDigit (d : Nat) (h : d < 10) : isDecDigit (Nat.digitChar d) = true := by
  interval_cases d <;> rfl

theorem toDigitsCore_foldl (fuel : Nat) :
    ∀ (n : Nat) (ds : List Char), n < fuel →
      (Nat.toDigitsCore 10 fuel n ds).foldl digitStep 0 = ds.foldl digitStep n := by
  induction fuel with
  | zero => intro n ds h; omega
  | succ fuel ih =>
    intro n ds h
    have hd : (Nat.digitChar (n % 10)).toNat - '0'.toNat = n % 10 :=
      digitChar_value _ (Nat.mod_lt _ (by decide))
    simp only [Nat.toDigitsCore]
    split
    · rename_i h0
      simp only [List.foldl_cons, digitStep, hd]
      congr 1
      omega
    · rename_i h0
      rw [ih (n / 10) _ (by omega)]
      simp only [List.foldl_cons, digitStep, hd]
      congr 1
      omega

theorem toDigitsCore_digits (fuel : Nat) :
    ∀ (n : Nat) (ds : List Char) (c : Char),
      c ∈ Nat.toDigitsCore 10 fuel n ds → isDecDigit c = true ∨ c ∈ ds := by
  induction fuel with
  | zero => intro n ds c h; exact Or.inr (by simpa [Nat.toDigitsCore] using h)
  | succ fuel ih =>
    intro n ds c h
    have hd : isDecDigit (Nat.digitChar (n % 10)) = true :=
      digitChar_isDecDigit _ (Nat.mod_lt _ (by decide))
    simp only [Nat.toDigitsCore] at h
    split at h
    · rcases List.mem_cons.mp h with h1 | h1
      · exact Or.inl (h1 ▸ hd)
      · exact Or.inr h1
    · rcases ih _ _ _ h with h1 | h1
      · exact Or.inl h1
      · rcases List.mem_cons.mp h1 with h2 | h2
        · exact Or.inl (h2 ▸ hd)
        · exact Or.inr h2

theorem toDigitsCore_ne_nil (fuel : Nat) :
    ∀ (n : Nat) (ds : List Char), Nat.toDigitsCore 10 (fuel + 1) n ds ≠ [] := by
  induction fuel with
  | zero =>
    intro n ds
    simp only [Nat.toDigitsCore]
    split <;> simp
  | succ fuel ih =>
    intro n ds
    rw [Nat.toDigitsCore]
    split
    · simp
    · exact ih _ _

/-- Reading back the digits of `u` gives `u`. -/
theorem parseDigits_formatBits (u : Nat) : parseDigits (formatBits u) = u := by
  have h := toDigitsCore_foldl (u + 1) u [] (Nat.lt_succ_self u)
  simpa [parseDigits_eq_foldl, formatBits, Nat.toDigits] using h

/-- Every character of a rendered unsigned value is a decimal digit. -/
theorem formatBits_digits (u : Nat) (c : Char) (h : c ∈ formatBits u) : isDecDigit c = true := by
  rcases toDigitsCore_digits (u + 1) u [] c h with h1 | h1
  · exact h1
  · simp at h1

theorem formatBits_ne_nil (u : Nat) : formatBits u ≠ [] := toDigitsCore_ne_nil u u []

theorem formatBits_injective (a b : Nat) (h : formatBits a = formatBits b) : a = b := by
  have := congrArg parseDigits h
  simpa [parseDigits_formatBits] using this

theorem Itoa_injective (a b : Int) (h : Itoa a = Itoa b) : a = b := by
  have hm : ¬ isDecDigit '-' = true := by decide
  have h := congrArg String.data h
  unfold Itoa at h
  by_cases ha : a < 0 <;> by_cases hb : b < 0
  · simp only [ha, hb, if_true, List.cons.injEq, true_and] at h
    have := formatBits_injective _ _ h
    omega
  · simp only [ha, hb, if_true, if_false] at h
    have hmem : '-' ∈ formatBits b.natAbs := by
      rw [← h]; exact List.mem_cons_self _ _
    exact absurd (formatBits_digits _ '-' hmem) hm
  · simp only [ha, hb, if_true, if_false] at h
    have hmem : '-' ∈ formatBits a.natAbs := by
      rw [h]; exact List.mem_cons_self _ _
    exact absurd (formatBits_digits _ '-' hmem) hm
  · simp only [ha, hb, if_false] at h
    have := formatBits_injective _ _ h
    omega

theorem formatBits_all (u : Nat) : (formatBits u).all isDecDigit = true := by
  rw [List.all_eq_true]
  intro c hc
  exact formatBits_digits u c hc

/-- Parsing the rendering of a 64-bit integer gives the integer back. -/
theorem Atoi_Itoa (m : Int) (hlo : -(2 : Int) ^ 63 ≤ m) (hhi : m < (2 : Int) ^ 63) :
    Atoi (Itoa m) = Except.ok m := by
  have hall := formatBits_all m.natAbs
  have hval := parseDigits_formatBits m.natAbs
  have hne := formatBits_ne_nil m.natAbs
  by_cases hneg : m < 0
  · have hdata : (Itoa m).data = '-' :: formatBits m.natAbs := by simp [Itoa, hneg]
    have hemp : (formatBits m.natAbs).isEmpty = false := by
      cases hf : formatBits m.natAbs with
      | nil => exact absurd hf hne
      | cons a l => rfl
    have hle : ¬ m.natAbs > 2 ^ 63 := by omega
    unfold Atoi
    rw [hdata]
    simp only [hemp, hall, hval, beq_self_eq_true, Bool.true_or, if_true, Bool.not_true,
      Bool.false_eq_true, if_false, Bool.false_and, Bool.true_and, decide_eq_true_eq, hle]
    congr 1
    omega
  · have hdata : (Itoa m).data = formatBits m.natAbs := by simp [Itoa, hneg]
    have hlt : ¬ m.natAbs ≥ 2 ^ 63 := by omega
    unfold Atoi
    rw [hdata]
    cases hf : formatBits m.natAbs with
    | nil => exact absurd hf hne
    | cons a l =>
      have ha : isDecDigit a = true := formatBits_digits m.natAbs a (hf ▸ List.mem_cons_self _ _)
      have ha1 : a ≠ '-' := by
        intro h; rw [h] at ha; exact absurd ha (by decide)
      have ha2 : a ≠ '+' := by
        intro h; rw [h] at ha; exact absurd ha (by decide)
      rw [hf] at hall hval
      have hb1 : (a == '-') = false := by simpa using ha1
      have hb2 : (a == '+') = false := by simpa using ha2
      simp only [hb1, hb2, hall, hval, Bool.or_false, Bool.false_eq_true, if_false,
        List.isEmpty_cons, Bool.not_true, Bool.not_false, Bool.true_and, Bool.false_and,
        decide_eq_true_eq, hlt]
      congr 1
      omega

/-- No `&` occurs in a rendered integer. -/
theorem Itoa_no_amp (a : Int) : '&' ∉ (Itoa a).data := by
  have hm : ¬ isDecDigit '&' = true := by decide
  intro h
  unfold Itoa at h
  split at h
  · rcases List.mem_cons.mp h with h1 | h1
    · exact absurd h1 (by decide)
    · exact hm (formatBits_digits _ _ h1)
  · exact hm (formatBits_digits _ _ h)

/-- Two lists that agree after their first separator agree piecewise. -/
theorem append_cons_inj {s : Char} :
    ∀ (a b x y : List Char), s ∉ a → s ∉ b → a ++ s :: x = b ++ s :: y → a = b ∧ x = y := by
  intro a
  induction a with
  | nil =>
    intro b x y _ hb h
    cases b with
    | nil => simpa using h
    | cons b0 bs =>
      simp only [List.nil_append, List.cons_append, List.cons.injEq] at h
      exact absurd (h.1 ▸ List.mem_cons_self _ _) hb
  | cons a0 as ih =>
    intro b x y ha hb h
    cases b with
    | nil =>
      simp only [List.nil_append, List.cons_append, List.cons.injEq] at h
      exact absurd (h.1 ▸ List.mem_cons_self _ _) ha
    | cons b0 bs =>
      simp only [List.cons_append, List.cons.injEq] at h
      have ha1 : s ∉ as := fun hh => ha (List.mem_cons_of_mem _ hh)
      have hb1 : s ∉ bs := fun hh => hb (List.mem_cons_of_mem _ hh)
      obtain ⟨h1, h2⟩ := ih bs x y ha1 hb1 h.2
      exact ⟨by rw [h.1, h1], h2⟩

/-- The characters of a request URL. -/
theorem buildYouTubeRequestUrl_data (c : String) (m : Int) (k : String) :
    (buildYouTubeRequestUrl c m k).data =
      "https://www.googleapis.com/youtube/v3/search?part=snippet&channelId=".data ++
        (c.data ++ '&' :: ("maxResults=".data ++
          ((Itoa m).data ++ '&' :: ("order=date&type=video&key=".data ++ k.data)))) := by
  simp [buildYouTubeRequestUrl, String.data_append]

/-! ## The response mapper -/

theorem foldl_mapStep_toList (vs : List Video) :
    ∀ acc : ApiResponse, acc.Videos.toList = [] →
      (vs.foldl mapStep acc).Videos.toList =
        vs.map (fun video => entryFor video.Id.VideoId) := by
  suffices hgen : ∀ (acc : ApiResponse),
      (vs.foldl mapStep acc).Videos.toList =
        acc.Videos.toList ++ vs.map (fun video => entryFor video.Id.VideoId) by
    intro acc h
    rw [hgen acc, h, List.nil_append]
  induction vs with
  | nil => intro acc; simp
  | cons v vs ih =>
    intro acc
    rw [List.foldl_cons, ih]
    simp [mapStep, Slice.append, Slice.toList, entryFor]

theorem mapYouTubeResponseToJsonResponse_toList (response : YouTubeResponse) :
    (mapYouTubeResponseToJsonResponse response).Videos.toList =
      (videoIds response).map entryFor := by
  unfold mapYouTubeResponseToJsonResponse videoIds
  rw [foldl_mapStep_toList _ { Videos := Slice.nil } rfl, List.map_map]
  rfl

/-- C1: the mapper's output is the element-wise map of the upstream video ids,
in the same order: it has exactly as many entries as the input has items, and
for every index `i` the `i`-th entry has the thumbnail URL and the video URL
built from the `i`-th id; nothing is filtered, deduplicated or reordered. -/
theorem mapYouTubeResponseToJsonResponse_elementwise (response : YouTubeResponse) :
    (mapYouTubeResponseToJsonResponse response).Videos.toList =
        (videoIds response).map (fun v =>
          { ThumbnailUrl := "https://img.youtube.com/vi/" ++ v ++ "/maxresdefault.jpg"
            VideoUrl := "https://www.youtube.com/watch?v=" ++ v }) ∧
      (mapYouTubeResponseToJsonResponse response).Videos.len = (videoIds response).length ∧
      (videoIds response).length = response.Video.len ∧
      ∀ (i : Nat) (v : String), (videoIds response)[i]? = some v →
        ∃ e, (mapYouTubeResponseToJsonResponse response).Videos.toList[i]? = some e ∧
          e.ThumbnailUrl = "https://img.youtube.com/vi/" ++ v ++ "/maxresdefault.jpg" ∧
          e.VideoUrl = "https://www.youtube.com/watch?v=" ++ v := by
  have h := mapYouTubeResponseToJsonResponse_toList response
  refine ⟨h, ?_, ?_, ?_⟩
  · simp [Slice.len, h]
  · simp [videoIds, Slice.len]
  · intro i v hv
    refine ⟨entryFor v, ?_, rfl, rfl⟩
    rw [h, List.getElem?_map, hv]
    rfl

/-- C1, at the ids `["abc123"]`: one entry, the one for `abc123`. -/
theorem mapYouTubeResponseToJsonResponse_elementwise_witness :
    (mapYouTubeResponseToJsonResponse
        { Video := Slice.mk [{ Id := { VideoId := "abc123" } }] }).Videos.len = 1 ∧
      ∃ e, (mapYouTubeResponseToJsonResponse
          { Video := Slice.mk [{ Id := { VideoId := "abc123" } }] }).Videos.toList[0]? = some e ∧
        e.ThumbnailUrl = "https://img.youtube.com/vi/abc123/maxresdefault.jpg" ∧
        e.VideoUrl = "https://www.youtube.com/watch?v=abc123" :=
  ⟨(mapYouTubeResponseToJsonResponse_elementwise
      { Video := Slice.mk [{ Id := { VideoId := "abc123" } }] }).2.1,
   (mapYouTubeResponseToJsonResponse_elementwise
      { Video := Slice.mk [{ Id := { VideoId := "abc123" } }] }).2.2.2 0 "abc123" rfl⟩

/-! ## The URL builder -/

theorem isPrefixOf_append (t post : List Char) : t.isPrefixOf (t ++ post) = true := by
  induction t with
  | nil => simp [List.isPrefixOf]
  | cons a t ih => simp [List.isPrefixOf, ih]

theorem occursIn_of_data (t s : String) (pre post : List Char)
    (h : s.data = pre ++ (t.data ++ post)) : occursIn t s = true := by
  unfold occursIn
  rw [h]
  clear h
  induction pre with
  | nil =>
    cases hts : t.data ++ post with
    | nil =>
      have ht : t.data = [] := (List.append_eq_nil.mp hts).1
      simp [ht, List.isPrefixOf]
    | cons a l =>
      rw [← hts, List.nil_append]
      have := isPrefixOf_append t.data post
      cases htl : (t.data ++ post) with
      | nil => simp [htl] at hts
      | cons a2 l2 =>
        rw [List.tails, List.any_cons, ← htl, this]
        rfl
  | cons a pre ih =>
    rw [List.cons_append, List.tails, List.any_cons, ih, Bool.or_true]

/-- C2: for every channelId `c` (in particular every non-empty one), every
integer `m` and every credential `k`, the request URL is the fixed base with
`part=snippet`, then `channelId=c`, `maxResults=` the base-10 rendering of `m`,
`order=date`, `type=video` and `key=k`; so each of these occurs in it. -/
theorem buildYouTubeRequestUrl_spec (c : String) (m : Int) (k : String) :
    buildYouTubeRequestUrl c m k =
        "https://www.googleapis.com/youtube/v3/search?part=snippet&channelId=" ++ c ++
          "&maxResults=" ++ Itoa m ++ "&order=date&type=video&key=" ++ k ∧
      occursIn ("&channelId=" ++ c ++ "&") (buildYouTubeRequestUrl c m k) = true ∧
      occursIn ("&maxResults=" ++ Itoa m ++ "&") (buildYouTubeRequestUrl c m k) = true ∧
      occursIn ("&key=" ++ k) (buildYouTubeRequestUrl c m k) = true ∧
      occursIn "?part=snippet&" (buildYouTubeRequestUrl c m k) = true ∧
      occursIn "&order=date&" (buildYouTubeRequestUrl c m k) = true ∧
      occursIn "&type=video&" (buildYouTubeRequestUrl c m k) = true := by
  have hd := buildYouTubeRequestUrl_data c m k
  refine ⟨?_, ?_, ?_, ?_, ?_, ?_, ?_⟩
  · apply String.ext
    rw [hd]
    simp [String.data_append]
  · apply occursIn_of_data _ _
      "https://www.googleapis.com/youtube/v3/search?part=snippet".data
      ("maxResults=".data ++ ((Itoa m).data ++ '&' ::
        ("order=date&type=video&key=".data ++ k.data)))
    rw [hd]
    simp [String.data_append]
  · apply occursIn_of_data _ _
      ("https://www.googleapis.com/youtube/v3/search?part=snippet&channelId=".data ++ c.data)
      ("order=date&type=video&key=".data ++ k.data)
    rw [hd]
    simp [String.data_append]
  · apply occursIn_of_data _ _
      ("https://www.googleapis.com/youtube/v3/search?part=snippet&channelId=".data ++
        (c.data ++ '&' :: ("maxResults=".data ++ ((Itoa m).data ++
          "&order=date&type=video".data))))
      []
    rw [hd]
    simp [String.data_append]
  · apply occursIn_of_data _ _
      "https://www.googleapis.com/youtube/v3/search".data
      ("channelId=".data ++ (c.data ++ '&' :: ("maxResults=".data ++
        ((Itoa m).data ++ '&' :: ("order=date&type=video&key=".data ++ k.data)))))
    rw [hd]
    simp
  · apply occursIn_of_data _ _
      ("https://www.googleapis.com/youtube/v3/search?part=snippet&channelId=".data ++
        (c.data ++ '&' :: ("maxResults=".data ++ (Itoa m).data)))
      ("type=video&key=".data ++ k.data)
    rw [hd]
    simp
  · apply occursIn_of_data _ _
      ("https://www.googleapis.com/youtube/v3/search?part=snippet&channelId=".data ++
        (c.data ++ '&' :: ("maxResults=".data ++ ((Itoa m).data ++ "&order=date".data))))
      ("key=".data ++ k.data)
    rw [hd]
    simp

/-- C8, refuted at channelId `a&key=x`: the URL holds the channelId as it is,
and its percent-encoded form `a%26key%3Dx` does not occur in the URL. -/
theorem buildYouTubeRequestUrl_not_percent_encoded :
    buildYouTubeRequestUrl "a&key=x" 5 "K" =
        "https://www.googleapis.com/youtube/v3/search?part=snippet&channelId=a&key=x&maxResults=5&order=date&type=video&key=K" ∧
      occursIn "a%26key%3Dx" (buildYouTubeRequestUrl "a&key=x" 5 "K") = false ∧
      occursIn "channelId=a&key=x&" (buildYouTubeRequestUrl "a&key=x" 5 "K") = true := by
  decide

/-- C8 as amended: the channelId and the credential are placed in the URL
verbatim, with no percent-encoding: the URL is, character for character, the
fixed prefix, `c`, `&maxResults=`, the decimal `m`, `&order=date&type=video&key=`
and `k`; its length is that of `c`, of the decimal `m` and of `k` plus the 107
fixed characters, and every character of `c` and of `k` is in it unchanged. -/
theorem buildYouTubeRequestUrl_verbatim (c : String) (m : Int) (k : String) :
    (buildYouTubeRequestUrl c m k).data =
        "https://www.googleapis.com/youtube/v3/search?part=snippet&channelId=".data ++ c.data ++
          "&maxResults=".data ++ (Itoa m).data ++ "&order=date&type=video&key=".data ++ k.data ∧
      (buildYouTubeRequestUrl c m k).length = c.length + (Itoa m).length + k.length + 107 ∧
      (∀ ch, ch ∈ c.data → ch ∈ (buildYouTubeRequestUrl c m k).data) ∧
      (∀ ch, ch ∈ k.data → ch ∈ (buildYouTubeRequestUrl c m k).data) := by
  have hd := buildYouTubeRequestUrl_data c m k
  refine ⟨?_, ?_, ?_, ?_⟩
  · rw [hd]; simp
  · simp only [String.length, hd, List.length_append, List.length_cons, List.length_nil]
    omega
  · intro ch hch
    rw [hd]
    simp [hch]
  · intro ch hch
    rw [hd]
    simp [hch]

/-- C8 as amended, at channelId `a&key=x`: the `&` and the `=` of the
channelId are in the URL, which is 7 + 1 + 1 + 107 characters long. -/
theorem buildYouTubeRequestUrl_verbatim_witness :
    '&' ∈ (buildYouTubeRequestUrl "a&key=x" 5 "K").data ∧
      (buildYouTubeRequestUrl "a&key=x" 5 "K").length = 116 :=
  ⟨(buildYouTubeRequestUrl_verbatim "a&key=x" 5 "K").2.2.1 '&' (by decide),
   (buildYouTubeRequestUrl_verbatim "a&key=x" 5 "K").2.1⟩

/-- C10: on channelIds without `&` the URL builder is injective: equal URLs
come from equal channelIds, equal maxResults and equal credentials.  Without
the condition it is not: a channelId that embeds
`&maxResults=1&order=date&type=video&key=k` gives the URL of another input. -/
theorem buildYouTubeRequestUrl_injective :
    (∀ (c1 c2 : String) (m1 m2 : Int) (k1 k2 : String),
      '&' ∉ c1.data → '&' ∉ c2.data →
      buildYouTubeRequestUrl c1 m1 k1 = buildYouTubeRequestUrl c2 m2 k2 →
      c1 = c2 ∧ m1 = m2 ∧ k1 = k2) ∧
    (∃ (c1 c2 : String) (m1 m2 : Int) (k1 k2 : String),
      (c1 ≠ c2 ∨ m1 ≠ m2 ∨ k1 ≠ k2) ∧
      buildYouTubeRequestUrl c1 m1 k1 = buildYouTubeRequestUrl c2 m2 k2) := by
  constructor
  · intro c1 c2 m1 m2 k1 k2 h1 h2 h
    have hd := congrArg String.data h
    rw [buildYouTubeRequestUrl_data, buildYouTubeRequestUrl_data] at hd
    have hd1 := List.append_cancel_left hd
    obtain ⟨hc, hrest⟩ := append_cons_inj _ _ _ _ h1 h2 hd1
    have hd2 := List.append_cancel_left hrest
    obtain ⟨hm, hrest2⟩ :=
      append_cons_inj _ _ _ _ (Itoa_no_amp m1) (Itoa_no_amp m2) hd2
    have hk := List.append_cancel_left hrest2
    exact ⟨String.ext hc, Itoa_injective _ _ (String.ext hm), String.ext hk⟩
  · refine ⟨"a&maxResults=1&order=date&type=video&key=k", "a", 2, 1, "z",
      "k&maxResults=2&order=date&type=video&key=z", Or.inl (by decide), by decide⟩

/-- C10, at two inputs without `&` in the channelId. -/
theorem buildYouTubeRequestUrl_injective_witness :
    "UC1" = "UC1" ∧ (5 : Int) = 5 ∧ "K" = "K" :=
  buildYouTubeRequestUrl_injective.1 "UC1" "UC1" 5 5 "K" "K" (by decide) (by decide) rfl

/-! ## The response writer -/

theorem append_newline_ne_empty (msg : String) : msg ++ "\n" ≠ "" := by
  intro h
  have := congrArg String.data h
  simp [String.data_append] at this

theorem Values.Get_of_missing_or_empty (v : Values) (key : String)
    (h : v key = [] ∨ ∃ rest, v key = "" :: rest) : v.Get key = "" := by
  unfold Values.Get
  rcases h with h | ⟨rest, h⟩ <;> rw [h]

/-- What `http.Error` leaves in a writer whose header was not yet written. -/
theorem httpError_fresh (w : ResponseWriter) (msg : String) (code : Int)
    (hw : w.wroteHeader = false) :
    (httpError w msg code).wroteHeader = true ∧
      (httpError w msg code).status = code ∧
      (httpError w msg code).sentHeader =
        ((w.header.Del "Content-Length").Set "Content-Type" "text/plain; charset=utf-8").Set
          "X-Content-Type-Options" "nosniff" ∧
      (httpError w msg code).body =
        if ResponseWriter.bodyAllowedForStatus code then w.body ++ (msg ++ "\n") else w.body := by
  have hne := append_newline_ne_empty msg
  unfold httpError ResponseWriter.Write ResponseWriter.WriteHeader
  simp only [hw, hne, if_false, if_true, Bool.false_eq_true]
  cases hallowed : ResponseWriter.bodyAllowedForStatus code <;> simp

/-! ## The thumbnails handler: rejected requests -/

/-- C3: with the credential set, a request whose `channelId` parameter is
missing or empty, whatever its `maxResults`, is answered with status 400 and
the message `channelId is missing`, and `http.Get` is not called. -/
theorem thumbnails_channelId_missing (env : Env) (r : Request) (σ : World)
    (hkey : env.Getenv "YT_API_KEY" ≠ "")
    (hc : r.Query "channelId" = [] ∨ ∃ rest, r.Query "channelId" = "" :: rest)
    (hw : σ.w.wroteHeader = false) (hb : σ.w.body = "") :
    (thumbnails env r σ).w.wroteHeader = true ∧
      (thumbnails env r σ).w.status = 400 ∧
      (thumbnails env r σ).w.body = "channelId is missing\n" ∧
      occursIn "channelId" (thumbnails env r σ).w.body = true ∧
      (thumbnails env r σ).outbound = σ.outbound ∧
      (thumbnails env r σ).exited = σ.exited := by
  have hget := Values.Get_of_missing_or_empty _ _ hc
  have he := httpError_fresh σ.w "channelId is missing" 400 hw
  have hσ : thumbnails env r σ = { σ with w := httpError σ.w "channelId is missing" 400 } := by
    simp [thumbnails, hkey, hget]
  have hbody : (httpError σ.w "channelId is missing" 400).body = "channelId is missing\n" := by
    rw [he.2.2.2, hb]; decide
  rw [hσ]
  refine ⟨he.1, he.2.1, hbody, ?_, rfl, rfl⟩
  simp only [hbody]
  decide

/-- C3, at a request without `channelId` and with `maxResults=5`. -/
theorem thumbnails_channelId_missing_witness :
    (thumbnails (constEnv "K" (Except.error "unreachable") ({ Video := Slice.nil }, none))
        (requestOf "GET" [("maxResults", "5")]) World.init).w.status = 400 ∧
      (thumbnails (constEnv "K" (Except.error "unreachable") ({ Video := Slice.nil }, none))
        (requestOf "GET" [("maxResults", "5")]) World.init).w.body = "channelId is missing\n" ∧
      (thumbnails (constEnv "K" (Except.error "unreachable") ({ Video := Slice.nil }, none))
        (requestOf "GET" [("maxResults", "5")]) World.init).outbound = [] :=
  have h := thumbnails_channelId_missing
    (constEnv "K" (Except.error "unreachable") ({ Video := Slice.nil }, none))
    (requestOf "GET" [("maxResults", "5")]) World.init (by decide) (Or.inl (by decide)) rfl rfl
  ⟨h.2.1, h.2.2.1, h.2.2.2.2.1⟩

/-- C4: with the credential set and a non-empty `channelId`, a request whose
`maxResults` parameter is missing, empty or rejected by `strconv.Atoi` is
answered with status 400 and the message
`maxResults needs to be a valid Integer`, and `http.Get` is not called. -/
theorem thumbnails_maxResults_invalid (env : Env) (r : Request) (σ : World)
    (hkey : env.Getenv "YT_API_KEY" ≠ "")
    (hc : r.Query.Get "channelId" ≠ "")
    (hm : r.Query "maxResults" = [] ∨ (∃ rest, r.Query "maxResults" = "" :: rest) ∨
      ∃ e, Atoi (r.Query.Get "maxResults") = Except.error e)
    (hw : σ.w.wroteHeader = false) (hb : σ.w.body = "") :
    (thumbnails env r σ).w.wroteHeader = true ∧
      (thumbnails env r σ).w.status = 400 ∧
      (thumbnails env r σ).w.body = "maxResults needs to be a valid Integer\n" ∧
      occursIn "maxResults" (thumbnails env r σ).w.body = true ∧
      (thumbnails env r σ).outbound = σ.outbound ∧
      (thumbnails env r σ).exited = σ.exited := by
  have herr : ∃ e, Atoi (r.Query.Get "maxResults") = Except.error e := by
    rcases hm with h | h | h
    · rw [Values.Get_of_missing_or_empty _ _ (Or.inl h)]
      exact ⟨NumError.ErrSyntax, by decide⟩
    · rw [Values.Get_of_missing_or_empty _ _ (Or.inr h)]
      exact ⟨NumError.ErrSyntax, by decide⟩
    · exact h
  obtain ⟨e, herr⟩ := herr
  have he := httpError_fresh σ.w "maxResults needs to be a valid Integer" 400 hw
  have hσ : thumbnails env r σ =
      { σ with w := httpError σ.w "maxResults needs to be a valid Integer" 400 } := by
    simp [thumbnails, hkey, hc, herr]
  have hbody : (httpError σ.w "maxResults needs to be a valid Integer" 400).body =
      "maxResults needs to be a valid Integer\n" := by
    rw [he.2.2.2, hb]; decide
  rw [hσ]
  refine ⟨he.1, he.2.1, hbody, ?_, rfl, rfl⟩
  simp only [hbody]
  decide

/-- C4, at a request with `channelId=UC1` and `maxResults=ten`. -/
theorem thumbnails_maxResults_invalid_witness :
    (thumbnails (constEnv "K" (Except.error "unreachable") ({ Video := Slice.nil }, none))
        (requestOf "GET" [("channelId", "UC1"), ("maxResults", "ten")])
        World.init).w.status = 400 ∧
      (thumbnails (constEnv "K" (Except.error "unreachable") ({ Video := Slice.nil }, none))
        (requestOf "GET" [("channelId", "UC1"), ("maxResults", "ten")])
        World.init).w.body = "maxResults needs to be a valid Integer\n" ∧
      (thumbnails (constEnv "K" (Except.error "unreachable") ({ Video := Slice.nil }, none))
        (requestOf "GET" [("channelId", "UC1"), ("maxResults", "ten")])
        World.init).outbound = [] :=
  have h := thumbnails_maxResults_invalid
    (constEnv "K" (Except.error "unreachable") ({ Video := Slice.nil }, none))
    (requestOf "GET" [("channelId", "UC1"), ("maxResults", "ten")]) World.init
    (by decide) (by decide) (Or.inr (Or.inr ⟨NumError.ErrSyntax, by decide⟩)) rfl rfl
  ⟨h.2.1, h.2.2.1, h.2.2.2.2.1⟩

/-! ## The thumbnails handler: upstream failure -/

theorem occursIn_Itoa_message (i : Int) :
    occursIn (Itoa i) ("YouTube API returned response code " ++ Itoa i ++ "\n") = true := by
  apply occursIn_of_data _ _ "YouTube API returned response code ".data "\n".data
  simp [String.data_append]

/-- C5: for a valid request whose outbound call returns a status code of 300
or more, the handler answers with status 500 and the message
`YouTube API returned response code ` followed by the decimal status code.
The response writer is a function of the status code alone: neither the bytes
read from the upstream body nor the error of the read enter it, and what is
sent is a plain-text error, not a mapped result. -/
theorem thumbnails_upstream_failure (env : Env) (r : Request) (σ : World) (m : Int)
    (res : Response)
    (hkey : env.Getenv "YT_API_KEY" ≠ "")
    (hc : r.Query.Get "channelId" ≠ "")
    (hm : Atoi (r.Query.Get "maxResults") = Except.ok m)
    (hget : env.httpGet (buildYouTubeRequestUrl (r.Query.Get "channelId") m
      (env.Getenv "YT_API_KEY")) = Except.ok res)
    (hs : 300 ≤ res.StatusCode)
    (hw : σ.w.wroteHeader = false) (hb : σ.w.body = "") :
    (thumbnails env r σ).w =
        httpError σ.w ("YouTube API returned response code " ++ Itoa res.StatusCode) 500 ∧
      (thumbnails env r σ).w.wroteHeader = true ∧
      (thumbnails env r σ).w.status = 500 ∧
      (thumbnails env r σ).w.body =
        "YouTube API returned response code " ++ Itoa res.StatusCode ++ "\n" ∧
      occursIn (Itoa res.StatusCode) (thumbnails env r σ).w.body = true ∧
      (thumbnails env r σ).w.sentHeader "Content-Type" = ["text/plain; charset=utf-8"] := by
  have he := httpError_fresh σ.w
    ("YouTube API returned response code " ++ Itoa res.StatusCode) 500 hw
  have hgt : res.StatusCode > 299 := by omega
  have hσ : (thumbnails env r σ).w =
      httpError σ.w ("YouTube API returned response code " ++ Itoa res.StatusCode) 500 := by
    simp [thumbnails, hkey, hc, hm, hget, hgt]
  have hbody : (httpError σ.w
      ("YouTube API returned response code " ++ Itoa res.StatusCode) 500).body =
      "YouTube API returned response code " ++ Itoa res.StatusCode ++ "\n" := by
    rw [he.2.2.2, hb]
    have h500 : ResponseWriter.bodyAllowedForStatus 500 = true := by decide
    rw [h500, if_pos rfl]
    apply String.ext
    simp [String.data_append]
  rw [hσ]
  refine ⟨rfl, he.1, he.2.1, hbody, ?_, ?_⟩
  · rw [hbody]
    exact occursIn_Itoa_message _
  · rw [he.2.2.1]
    simp [Values.Set]

/-- C5, at the upstream status 403: status 500 and a message with `403`. -/
theorem thumbnails_upstream_failure_witness :
    (thumbnails
        (constEnv "K" (Except.ok { StatusCode := 403, Body := "quotaExceeded", ReadErr := none })
          ({ Video := Slice.nil }, none))
        (requestOf "GET" [("channelId", "UC1"), ("maxResults", "5")])
        World.init).w.status = 500 ∧
      (thumbnails
        (constEnv "K" (Except.ok { StatusCode := 403, Body := "quotaExceeded", ReadErr := none })
          ({ Video := Slice.nil }, none))
        (requestOf "GET" [("channelId", "UC1"), ("maxResults", "5")])
        World.init).w.body = "YouTube API returned response code 403\n" :=
  have h := thumbnails_upstream_failure
    (constEnv "K" (Except.ok { StatusCode := 403, Body := "quotaExceeded", ReadErr := none })
      ({ Video := Slice.nil }, none))
    (requestOf "GET" [("channelId", "UC1"), ("maxResults", "5")]) World.init 5
    { StatusCode := 403, Body := "quotaExceeded", ReadErr := none }
    (by decide) (by decide) (by decide) rfl (by decide) rfl rfl
  ⟨h.2.2.1, h.2.2.2.1⟩

/-! ## The thumbnails handler: the success path -/

theorem marshal_ne_empty (t : String) : "\x7b\"videos\":" ++ t ++ "\x7d" ≠ "" := by
  intro h
  have := congrArg String.data h
  simp [String.data_append] at this

/-- The success path: a valid request whose outbound call returns a status
below 300 and a body that was read in full is answered with status 200 and the
JSON rendering of the mapped result of whatever `json.Unmarshal` left in the
destination; the error `json.Unmarshal` returned is not looked at. -/
theorem thumbnails_success (env : Env) (r : Request) (σ : World) (m : Int) (res : Response)
    (hkey : env.Getenv "YT_API_KEY" ≠ "")
    (hc : r.Query.Get "channelId" ≠ "")
    (hm : Atoi (r.Query.Get "maxResults") = Except.ok m)
    (hget : env.httpGet (buildYouTubeRequestUrl (r.Query.Get "channelId") m
      (env.Getenv "YT_API_KEY")) = Except.ok res)
    (hs : res.StatusCode ≤ 299) (hr : res.ReadErr = none)
    (hw : σ.w.wroteHeader = false) (hb : σ.w.body = "") :
    (thumbnails env r σ).w.wroteHeader = true ∧
      (thumbnails env r σ).w.status = 200 ∧
      (thumbnails env r σ).w.body =
        "\x7b\"videos\":" ++ marshalSlice marshalVideoResponse
          (mapYouTubeResponseToJsonResponse
            (env.jsonUnmarshal res.Body { Video := Slice.nil }).1).Videos ++ "\x7d" ∧
      (thumbnails env r σ).w.sentHeader "Content-Type" = ["application/json"] := by
  have hgt : ¬ res.StatusCode > 299 := by omega
  have hne := marshal_ne_empty (marshalSlice marshalVideoResponse
    (mapYouTubeResponseToJsonResponse
      (env.jsonUnmarshal res.Body { Video := Slice.nil }).1).Videos)
  have h200 : ResponseWriter.bodyAllowedForStatus 200 = true := by decide
  simp only [thumbnails, hkey, hc, hm, hget, hgt, hr, jsonMarshal, if_false,
    ResponseWriter.Write, ResponseWriter.WriteHeader, hw, hne, h200, if_true,
    Bool.false_eq_true, Bool.not_true, hb]
  refine ⟨trivial, trivial, ?_, ?_⟩
  · apply String.ext
    simp [String.data_append]
  · simp [Values.Set]

/-- C6, refuted at the upstream result with zero items (the decoding of
`{"items":[]}`, a non-nil empty slice): the mapper returns the nil slice and
the serialisation is `{"videos":null}`, not `{"videos":[]}`. -/
theorem zero_items_not_empty_array :
    (mapYouTubeResponseToJsonResponse { Video := Slice.mk [] }).Videos = Slice.nil ∧
      (mapYouTubeResponseToJsonResponse { Video := Slice.mk [] }).Videos.isNil = true ∧
      jsonMarshal (mapYouTubeResponseToJsonResponse { Video := Slice.mk [] }) =
        Except.ok "\x7b\"videos\":null\x7d" ∧
      jsonMarshal (mapYouTubeResponseToJsonResponse { Video := Slice.mk [] }) ≠
        Except.ok "\x7b\"videos\":[]\x7d" := by
  decide

/-- C6 as amended: for an upstream result with zero items the mapper returns
an `ApiResponse` whose `Videos` is the nil slice, of length 0, which
`json.Marshal` renders without error as `{"videos":null}`; a valid request
whose upstream body decodes to such a result is answered with status 200 and
that body, so this is a success. -/
theorem zero_items_gives_null (response : YouTubeResponse) (h0 : response.Video.len = 0) :
    mapYouTubeResponseToJsonResponse response = { Videos := Slice.nil } ∧
      (mapYouTubeResponseToJsonResponse response).Videos.len = 0 ∧
      jsonMarshal (mapYouTubeResponseToJsonResponse response) =
        Except.ok "\x7b\"videos\":null\x7d" ∧
      ∀ (env : Env) (r : Request) (σ : World) (m : Int) (res : Response),
        env.Getenv "YT_API_KEY" ≠ "" →
        r.Query.Get "channelId" ≠ "" →
        Atoi (r.Query.Get "maxResults") = Except.ok m →
        env.httpGet (buildYouTubeRequestUrl (r.Query.Get "channelId") m
          (env.Getenv "YT_API_KEY")) = Except.ok res →
        res.StatusCode ≤ 299 → res.ReadErr = none →
        (env.jsonUnmarshal res.Body { Video := Slice.nil }).1 = response →
        σ.w.wroteHeader = false → σ.w.body = "" →
        (thumbnails env r σ).w.status = 200 ∧
          (thumbnails env r σ).w.body = "\x7b\"videos\":null\x7d" ∧
          (thumbnails env r σ).w.sentHeader "Content-Type" = ["application/json"] := by
  have hnil : response.Video.toList = [] := List.length_eq_zero.mp h0
  have hmap : mapYouTubeResponseToJsonResponse response = { Videos := Slice.nil } := by
    unfold mapYouTubeResponseToJsonResponse
    rw [hnil]
    rfl
  refine ⟨hmap, ?_, ?_, ?_⟩
  · rw [hmap]; rfl
  · rw [hmap]; rfl
  · intro env r σ m res hkey hc hm hget hs hr hdec hw hb
    have h := thumbnails_success env r σ m res hkey hc hm hget hs hr hw hb
    rw [hdec, hmap] at h
    exact ⟨h.2.1, h.2.2.1, h.2.2.2⟩

/-- C6 as amended, at the upstream body `{"items":[]}`, decoded to the empty
non-nil slice: status 200 with the body `{"videos":null}`. -/
theorem zero_items_gives_null_witness :
    jsonMarshal (mapYouTubeResponseToJsonResponse { Video := Slice.mk [] }) =
        Except.ok "\x7b\"videos\":null\x7d" ∧
      (thumbnails
        (constEnv "K"
          (Except.ok { StatusCode := 200, Body := "\x7b\"items\":[]\x7d", ReadErr := none })
          ({ Video := Slice.mk [] }, none))
        (requestOf "GET" [("channelId", "UC1"), ("maxResults", "5")])
        World.init).w.status = 200 ∧
      (thumbnails
        (constEnv "K"
          (Except.ok { StatusCode := 200, Body := "\x7b\"items\":[]\x7d", ReadErr := none })
          ({ Video := Slice.mk [] }, none))
        (requestOf "GET" [("channelId", "UC1"), ("maxResults", "5")])
        World.init).w.body = "\x7b\"videos\":null\x7d" :=
  have h := zero_items_gives_null { Video := Slice.mk [] } rfl
  have h2 := h.2.2.2
    (constEnv "K"
      (Except.ok { StatusCode := 200, Body := "\x7b\"items\":[]\x7d", ReadErr := none })
      ({ Video := Slice.mk [] }, none))
    (requestOf "GET" [("channelId", "UC1"), ("maxResults", "5")]) World.init 5
    { StatusCode := 200, Body := "\x7b\"items\":[]\x7d", ReadErr := none }
    (by decide) (by decide) (by decide) rfl (by decide) rfl rfl rfl rfl
  ⟨h.2.2.1, h2.1, h2.2.1⟩

/-- C7, evaluated at an upstream response with status 200 and the truncated
body `[1,2`, which `json.Unmarshal` rejects (`unexpected end of JSON input`)
leaving the destination untouched: the handler does not look at the error and
answers with status 200, content type `application/json` and the body
`{"videos":null}`; it does not answer with status 500. -/
theorem thumbnails_unparseable_body_answers_200 :
    (thumbnails
        (constEnv "K" (Except.ok { StatusCode := 200, Body := "[1,2", ReadErr := none })
          ({ Video := Slice.nil }, some "unexpected end of JSON input"))
        (requestOf "GET" [("channelId", "UC1"), ("maxResults", "5")])
        World.init).w.status = 200 ∧
      (thumbnails
        (constEnv "K" (Except.ok { StatusCode := 200, Body := "[1,2", ReadErr := none })
          ({ Video := Slice.nil }, some "unexpected end of JSON input"))
        (requestOf "GET" [("channelId", "UC1"), ("maxResults", "5")])
        World.init).w.status ≠ 500 ∧
      (thumbnails
        (constEnv "K" (Except.ok { StatusCode := 200, Body := "[1,2", ReadErr := none })
          ({ Video := Slice.nil }, some "unexpected end of JSON input"))
        (requestOf "GET" [("channelId", "UC1"), ("maxResults", "5")])
        World.init).w.body = "\x7b\"videos\":null\x7d" ∧
      (thumbnails
        (constEnv "K" (Except.ok { StatusCode := 200, Body := "[1,2", ReadErr := none })
          ({ Video := Slice.nil }, some "unexpected end of JSON input"))
        (requestOf "GET" [("channelId", "UC1"), ("maxResults", "5")])
        World.init).w.sentHeader "Content-Type" = ["application/json"] := by
  have h := thumbnails_success
    (constEnv "K" (Except.ok { StatusCode := 200, Body := "[1,2", ReadErr := none })
      ({ Video := Slice.nil }, some "unexpected end of JSON input"))
    (requestOf "GET" [("channelId", "UC1"), ("maxResults", "5")]) World.init 5
    { StatusCode := 200, Body := "[1,2", ReadErr := none }
    (by decide) (by decide) (by decide) rfl (by decide) rfl rfl rfl
  refine ⟨h.2.1, ?_, h.2.2.1, h.2.2.2⟩
  rw [h.2.1]
  decide

/-! ## The CORS wrapper -/

/-- C9: for a request with method `OPTIONS` and any wrapped handler `next`,
`CORS next` sends the headers `Access-Control-Allow-Origin: *`,
`Access-Control-Allow-Headers: Content-Type` and
`Access-Control-Allow-Methods: GET`, the status 204 and no body; the result
is the same for every `next`, which is not called, and neither the trace of
outbound requests nor the log changes. -/
theorem CORS_preflight (next : HandlerFunc) (r : Request) (σ : World)
    (hmethod : r.Method = "OPTIONS")
    (hw : σ.w.wroteHeader = false) (hb : σ.w.body = "") :
    (CORS next r σ).w.sentHeader "Access-Control-Allow-Origin" =
        σ.w.header "Access-Control-Allow-Origin" ++ ["*"] ∧
      (CORS next r σ).w.sentHeader "Access-Control-Allow-Headers" =
        σ.w.header "Access-Control-Allow-Headers" ++ ["Content-Type"] ∧
      (CORS next r σ).w.sentHeader "Access-Control-Allow-Methods" =
        σ.w.header "Access-Control-Allow-Methods" ++ ["GET"] ∧
      (CORS next r σ).w.wroteHeader = true ∧
      (CORS next r σ).w.status = 204 ∧
      (CORS next r σ).w.body = "" ∧
      (∀ next2 : HandlerFunc, CORS next r σ = CORS next2 r σ) ∧
      (CORS next r σ).outbound = σ.outbound ∧
      (CORS next r σ).log = σ.log ∧
      (CORS next r σ).exited = σ.exited := by
  have he := httpError_fresh
    (ResponseWriter.mk (((σ.w.header.Add "Access-Control-Allow-Origin" "*").Add
      "Access-Control-Allow-Headers" "Content-Type").Add "Access-Control-Allow-Methods" "GET")
      σ.w.wroteHeader σ.w.status σ.w.sentHeader σ.w.body)
    "No Content" 204 hw
  have h204 : ResponseWriter.bodyAllowedForStatus 204 = false := by decide
  have hσ : ∀ next3 : HandlerFunc, CORS next3 r σ =
      World.mk (httpError
        (ResponseWriter.mk (((σ.w.header.Add "Access-Control-Allow-Origin" "*").Add
          "Access-Control-Allow-Headers" "Content-Type").Add "Access-Control-Allow-Methods" "GET")
          σ.w.wroteHeader σ.w.status σ.w.sentHeader σ.w.body)
        "No Content" 204) σ.log σ.outbound σ.exited := by
    intro next3
    simp [CORS, hmethod]
  rw [hσ next]
  refine ⟨?_, ?_, ?_, he.1, he.2.1, ?_, ?_, rfl, rfl, rfl⟩
  · simp only [he.2.2.1]
    simp [Values.Set, Values.Del, Values.Add]
  · simp only [he.2.2.1]
    simp [Values.Set, Values.Del, Values.Add]
  · simp only [he.2.2.1]
    simp [Values.Set, Values.Del, Values.Add]
  · simp only [he.2.2.2, h204]
    simpa using hb
  · intro next2
    rw [hσ next2]

/-- C9, at an `OPTIONS` request on a fresh writer, wrapped around the
thumbnails handler: the three headers, status 204, no body, no outbound call. -/
theorem CORS_preflight_witness :
    (CORS (thumbnails (constEnv "K" (Except.error "unreachable") ({ Video := Slice.nil }, none)))
        (requestOf "OPTIONS" []) World.init).w.sentHeader "Access-Control-Allow-Origin" = ["*"] ∧
      (CORS (thumbnails (constEnv "K" (Except.error "unreachable") ({ Video := Slice.nil }, none)))
        (requestOf "OPTIONS" []) World.init).w.status = 204 ∧
      (CORS (thumbnails (constEnv "K" (Except.error "unreachable") ({ Video := Slice.nil }, none)))
        (requestOf "OPTIONS" []) World.init).w.body = "" ∧
      (CORS (thumbnails (constEnv "K" (Except.error "unreachable") ({ Video := Slice.nil }, none)))
        (requestOf "OPTIONS" []) World.init).outbound = [] :=
  have h := CORS_preflight
    (thumbnails (constEnv "K" (Except.error "unreachable") ({ Video := Slice.nil }, none)))
    (requestOf "OPTIONS" []) World.init rfl rfl rfl
  ⟨h.1, h.2.2.2.2.1, h.2.2.2.2.2.1, h.2.2.2.2.2.2.2.1⟩

/-! ## Evaluations on concrete inputs -/

theorem Itoa_examples : Itoa 403 = "403" ∧ Itoa (-17) = "-17" ∧ Itoa 0 = "0" := by decide

theorem Atoi_examples :
    Atoi "12" = Except.ok 12 ∧ Atoi "-12" = Except.ok (-12) ∧ Atoi "+7" = Except.ok 7 ∧
      Atoi "" = Except.error NumError.ErrSyntax ∧
      Atoi "1x" = Except.error NumError.ErrSyntax ∧
      Atoi "-" = Except.error NumError.ErrSyntax ∧
      Atoi "9223372036854775807" = Except.ok 9223372036854775807 ∧
      Atoi "9223372036854775808" = Except.error NumError.ErrRange ∧
      Atoi "-9223372036854775808" = Except.ok (-9223372036854775808) := by
  decide

theorem buildYouTubeRequestUrl_example :
    buildYouTubeRequestUrl "UC1" 5 "K" =
      "https://www.googleapis.com/youtube/v3/search?part=snippet&channelId=UC1&maxResults=5&order=date&type=video&key=K" := by
  decide

theorem jsonMarshal_example :
    jsonMarshal (mapYouTubeResponseToJsonResponse
        { Video := Slice.mk [{ Id := { VideoId := "abc123" } }] }) =
      Except.ok "\x7b\"videos\":[\x7b\"thumbnailUrl\":\"https://img.youtube.com/vi/abc123/maxresdefault.jpg\",\"videoUrl\":\"https://www.youtube.com/watch?v=abc123\"\x7d]\x7d" := by
  decide

end YoutubeThumbnailApi
